import Mathlib

/-!
Shallow embedding of the bookmark-movement create operation
(`eden/mononoke/bookmarks/bookmarks_movement/src/create.rs`) together with
models of the collaborators it calls into: the authorization evaluator, the
kind classifier, the global-numbering policy check, the auxiliary-mapping
hook builder, and the pointer-store transaction.  The orchestrator `run` is
instrumented with an explicit trace of events so that ordering and frame
properties (what was consulted, what was staged, what was committed) can be
stated and proved.
-/

/-- Bookmark names are UTF-8 strings (`BookmarkName`). -/
abbrev BookmarkName := String

/-- Content-addressed changeset identifier (`ChangesetId`), kept abstract. -/
abbrev ChangesetId := Nat

/-- A changeset record (`BonsaiChangeset`); only its identity matters here. -/
abbrev BonsaiChangeset := Nat

/-- Acting principal, derived from the request context or an explicit override. -/
abbrev Principal := String

/-- Why a bookmark is being created (`BookmarkUpdateReason`). -/
inductive BookmarkUpdateReason
  | push
  | pull
  | blobimport
  | apiRequest
  deriving DecidableEq

/-- Opaque side-band replay metadata (the `BundleReplay` trait object). -/
structure BundleReplay where
  data : Nat
  deriving DecidableEq

/-- Modelled from the spec: the deferred auxiliary-mapping hook value returned
by `populate_git_mapping_txn_hook` (which is not under `src/`); the hook is an
opaque value handed unchanged to the transaction commit. -/
structure TxnHook where
  id : Nat
  deriving DecidableEq

/-- Modelled from the spec: an opaque storage-layer fault, surfaced unmodified. -/
structure StorageErr where
  code : Nat
  deriving DecidableEq

/-- Kind of a bookmark as resolved by the classifier. -/
inductive BookmarkKind
  | Scratch
  | Public
  deriving DecidableEq

/-- Caller-declared kind restriction (`BookmarkKindRestrictions`). -/
inductive BookmarkKindRestrictions
  | AnyKind
  | OnlyScratch
  | OnlyPublic
  deriving DecidableEq

/-- Modelled from the spec: the two authorization modes of
`BookmarkMoveAuthorization` (declared outside `src/`): derive the principal
from the ambient request context, or use a caller-supplied override. -/
inductive BookmarkMoveAuthorization
  | Context
  | Explicit (principal : Principal)
  deriving DecidableEq

/-- Modelled from the spec: the typed failures of `BookmarkMovementError`
(declared outside `src/`).  `TransactionFailed` appears literally in
`create.rs`; the remaining variants follow the spec's error taxonomy
(permission denied, kind mismatch, configuration conflict, storage error). -/
inductive BookmarkMovementError
  | PermissionDenied (bookmark : BookmarkName)
  | KindMismatch (expected actual : BookmarkKind)
  | ConfigurationConflict
  | StorageError (err : StorageErr)
  | TransactionFailed
  deriving DecidableEq

/-- The ambient request context (`CoreContext`), reduced to the acting principal. -/
structure CoreContext where
  principal : Principal

/-- Modelled from the spec: the bookmark ACL table (`BookmarkAttrs`, not under
`src/`), with contract `is_allowed(principal, bookmark_name) -> bool`. -/
structure BookmarkAttrs where
  is_allowed : Principal → BookmarkName → Bool

/-- Modelled from the spec: the scratch-eligibility configuration
(`InfinitepushParams`, not under `src/`): which bookmark names are eligible to
be scratch. -/
structure InfinitepushParams where
  scratch_eligible : BookmarkName → Bool

/-- Modelled from the spec: the pushrebase configuration (`PushrebaseParams`,
not under `src/`), reduced to whether global numbering is enabled. -/
structure PushrebaseParams where
  assign_globalrevs : Bool

/-- The principal an authorization mode evaluates: the ambient context's
principal, or the explicit override. -/
def effective_principal (auth : BookmarkMoveAuthorization) (ctx : CoreContext) :
    Principal :=
  match auth with
  | BookmarkMoveAuthorization.Context => ctx.principal
  | BookmarkMoveAuthorization.Explicit p => p

/-- Modelled from the spec: `BookmarkMoveAuthorization::check_authorized` (not
under `src/`): evaluate the ACL table for the effective principal and the
bookmark; on refusal return the permission-denied failure naming the bookmark.
No side effects. -/
def check_authorized (auth : BookmarkMoveAuthorization) (ctx : CoreContext)
    (attrs : BookmarkAttrs) (bookmark : BookmarkName) :
    Except BookmarkMovementError Unit :=
  if attrs.is_allowed (effective_principal auth ctx) bookmark then
    Except.ok ()
  else
    Except.error (BookmarkMovementError.PermissionDenied bookmark)

/-- Modelled from the spec: the kind classifier,
`classify(bookmark_name) -> scratch|public`; a name matching no scratch
pattern defaults to public. -/
def classify (ip : InfinitepushParams) (bookmark : BookmarkName) : BookmarkKind :=
  if ip.scratch_eligible bookmark then BookmarkKind.Scratch
  else BookmarkKind.Public

/-- The kind a restriction demands, if any. -/
def expected_kind : BookmarkKindRestrictions → Option BookmarkKind
  | BookmarkKindRestrictions.AnyKind => none
  | BookmarkKindRestrictions.OnlyScratch => some BookmarkKind.Scratch
  | BookmarkKindRestrictions.OnlyPublic => some BookmarkKind.Public

/-- Modelled from the spec: `BookmarkKindRestrictions::check_kind` (not under
`src/`): resolve the bookmark's kind and enforce the caller-declared
restriction, failing with a kind-mismatch error carrying both the expected and
the actual kind.  Returns whether the bookmark is scratch. -/
def check_kind (r : BookmarkKindRestrictions) (ip : InfinitepushParams)
    (bookmark : BookmarkName) : Except BookmarkMovementError Bool :=
  match r with
  | BookmarkKindRestrictions.AnyKind =>
    Except.ok (classify ip bookmark == BookmarkKind.Scratch)
  | BookmarkKindRestrictions.OnlyScratch =>
    if classify ip bookmark == BookmarkKind.Scratch then Except.ok true
    else
      Except.error
        (BookmarkMovementError.KindMismatch BookmarkKind.Scratch
          (classify ip bookmark))
  | BookmarkKindRestrictions.OnlyPublic =>
    if classify ip bookmark == BookmarkKind.Public then Except.ok false
    else
      Except.error
        (BookmarkMovementError.KindMismatch BookmarkKind.Public
          (classify ip bookmark))

/-- Modelled from the spec: `require_globalrevs_disabled` (module
`globalrev_mapping`, not under `src/`): the global-numbering policy
(`is_disabled() -> bool`) must be disabled on this call path, otherwise a hard
configuration-conflict error.  It inspects only the pushrebase configuration. -/
def require_globalrevs_disabled (pp : PushrebaseParams) :
    Except BookmarkMovementError Unit :=
  if pp.assign_globalrevs then
    Except.error BookmarkMovementError.ConfigurationConflict
  else Except.ok ()

/-- Execution-trace events recording every collaborator consultation and
store interaction performed by `CreateBookmarkOp.run`. -/
inductive Event
  | authCheck
  | kindCheck
  | txnBegin
  | stageScratch (bookmark : BookmarkName) (target : ChangesetId)
  | stagePublic (bookmark : BookmarkName) (target : ChangesetId)
      (reason : BookmarkUpdateReason) (replay : Option BundleReplay)
  | globalrevCheck
  | hookBuild
  | commit
  | commitWithHook (hook : TxnHook)
  deriving DecidableEq

/-- Modelled from the spec: the backing store reached through `BlobRepo` (not
under `src/`): the pointer-transaction staging and commit operations, and the
auxiliary-mapping hook builder `populate_git_mapping_txn_hook`.  Each field is
an oracle giving that collaborator's outcome; hook-builder and staging faults
are storage-layer faults, and a commit returns `true` (applied) or `false`
(lost race) when no fault occurs. -/
structure Repo where
  stage_scratch : BookmarkName → ChangesetId → Except StorageErr Unit
  stage_public : BookmarkName → ChangesetId → BookmarkUpdateReason →
      Option BundleReplay → Except StorageErr Unit
  commit : Except StorageErr Bool
  commit_with_hook : TxnHook → Except StorageErr Bool
  hook_builder : ChangesetId → List (ChangesetId × BonsaiChangeset) →
      Except StorageErr (Option TxnHook)

/-- The create-operation builder (`CreateBookmarkOp` in `create.rs`).  The
new-changesets `HashMap` is modelled as an association list whose effective
mapping is last-binding-wins lookup (`hmLookup`), mirroring insert-overwrites
semantics. -/
structure CreateBookmarkOp where
  bookmark : BookmarkName
  target : ChangesetId
  reason : BookmarkUpdateReason
  auth : BookmarkMoveAuthorization
  kind_restrictions : BookmarkKindRestrictions
  new_changesets : List (ChangesetId × BonsaiChangeset)
  bundle_replay : Option BundleReplay

/-- `CreateBookmarkOp::new`. -/
def CreateBookmarkOp.new (bookmark : BookmarkName) (target : ChangesetId)
    (reason : BookmarkUpdateReason) : CreateBookmarkOp :=
  { bookmark := bookmark
    target := target
    reason := reason
    auth := BookmarkMoveAuthorization.Context
    kind_restrictions := BookmarkKindRestrictions.AnyKind
    new_changesets := []
    bundle_replay := none }

/-- `CreateBookmarkOp::only_if_scratch`. -/
def CreateBookmarkOp.only_if_scratch (op : CreateBookmarkOp) : CreateBookmarkOp :=
  { op with kind_restrictions := BookmarkKindRestrictions.OnlyScratch }

/-- `CreateBookmarkOp::only_if_public`. -/
def CreateBookmarkOp.only_if_public (op : CreateBookmarkOp) : CreateBookmarkOp :=
  { op with kind_restrictions := BookmarkKindRestrictions.OnlyPublic }

/-- `CreateBookmarkOp::with_bundle_replay_data`. -/
def CreateBookmarkOp.with_bundle_replay_data (op : CreateBookmarkOp)
    (bundle_replay : Option BundleReplay) : CreateBookmarkOp :=
  { op with bundle_replay := bundle_replay }

/-- `CreateBookmarkOp::with_new_changesets`: replace the map when it is still
empty, otherwise `extend` it with the argument (insert each entry, overwriting
per key — modelled by appending under last-binding-wins lookup). -/
def CreateBookmarkOp.with_new_changesets (op : CreateBookmarkOp)
    (changesets : List (ChangesetId × BonsaiChangeset)) : CreateBookmarkOp :=
  if op.new_changesets.isEmpty then
    { op with new_changesets := changesets }
  else
    { op with new_changesets := op.new_changesets ++ changesets }

/-- First-some choice on options, used to state lookup laws. -/
def hmOr (o1 o2 : Option BonsaiChangeset) : Option BonsaiChangeset :=
  match o1 with
  | some v => some v
  | none => o2

/-- Effective mapping of the modelled `HashMap`: the last binding for a key
wins, mirroring insert-overwrites semantics. -/
def hmLookup (m : List (ChangesetId × BonsaiChangeset)) (k : ChangesetId) :
    Option BonsaiChangeset :=
  (m.reverse.find? (fun p => p.1 == k)).map Prod.snd

/-- Union of two modelled maps in which, for keys present in both, the second
map wins. -/
def hmUnion (m1 m2 : List (ChangesetId × BonsaiChangeset)) :
    List (ChangesetId × BonsaiChangeset) :=
  m1 ++ m2

/-- `CreateBookmarkOp::run`: the orchestrator of `create.rs`, instrumented
with an execution trace.  Step order follows the source exactly: authorization
check, kind check, transaction creation, then the scratch staging or the
global-numbering check / hook build / public staging, then a single commit,
with a `false` commit result mapped to `TransactionFailed`. -/
def CreateBookmarkOp.run (op : CreateBookmarkOp) (ctx : CoreContext)
    (repo : Repo) (ip : InfinitepushParams) (pp : PushrebaseParams)
    (attrs : BookmarkAttrs) :
    Except BookmarkMovementError Unit × List Event :=
  match check_authorized op.auth ctx attrs op.bookmark with
  | Except.error e => (Except.error e, [Event.authCheck])
  | Except.ok _ =>
    match check_kind op.kind_restrictions ip op.bookmark with
    | Except.error e => (Except.error e, [Event.authCheck, Event.kindCheck])
    | Except.ok is_scratch =>
      if is_scratch then
        match repo.stage_scratch op.bookmark op.target with
        | Except.error e =>
          (Except.error (BookmarkMovementError.StorageError e),
            [Event.authCheck, Event.kindCheck, Event.txnBegin,
              Event.stageScratch op.bookmark op.target])
        | Except.ok _ =>
          match repo.commit with
          | Except.error e =>
            (Except.error (BookmarkMovementError.StorageError e),
              [Event.authCheck, Event.kindCheck, Event.txnBegin,
                Event.stageScratch op.bookmark op.target, Event.commit])
          | Except.ok true =>
            (Except.ok (),
              [Event.authCheck, Event.kindCheck, Event.txnBegin,
                Event.stageScratch op.bookmark op.target, Event.commit])
          | Except.ok false =>
            (Except.error BookmarkMovementError.TransactionFailed,
              [Event.authCheck, Event.kindCheck, Event.txnBegin,
                Event.stageScratch op.bookmark op.target, Event.commit])
      else
        match require_globalrevs_disabled pp with
        | Except.error e =>
          (Except.error e,
            [Event.authCheck, Event.kindCheck, Event.txnBegin,
              Event.globalrevCheck])
        | Except.ok _ =>
          match repo.hook_builder op.target op.new_changesets with
          | Except.error e =>
            (Except.error (BookmarkMovementError.StorageError e),
              [Event.authCheck, Event.kindCheck, Event.txnBegin,
                Event.globalrevCheck, Event.hookBuild])
          | Except.ok txn_hook =>
            match repo.stage_public op.bookmark op.target op.reason
                op.bundle_replay with
            | Except.error e =>
              (Except.error (BookmarkMovementError.StorageError e),
                [Event.authCheck, Event.kindCheck, Event.txnBegin,
                  Event.globalrevCheck, Event.hookBuild,
                  Event.stagePublic op.bookmark op.target op.reason
                    op.bundle_replay])
            | Except.ok _ =>
              match txn_hook with
              | some h =>
                match repo.commit_with_hook h with
                | Except.error e =>
                  (Except.error (BookmarkMovementError.StorageError e),
                    [Event.authCheck, Event.kindCheck, Event.txnBegin,
                      Event.globalrevCheck, Event.hookBuild,
                      Event.stagePublic op.bookmark op.target op.reason
                        op.bundle_replay, Event.commitWithHook h])
                | Except.ok true =>
                  (Except.ok (),
                    [Event.authCheck, Event.kindCheck, Event.txnBegin,
                      Event.globalrevCheck, Event.hookBuild,
                      Event.stagePublic op.bookmark op.target op.reason
                        op.bundle_replay, Event.commitWithHook h])
                | Except.ok false =>
                  (Except.error BookmarkMovementError.TransactionFailed,
                    [Event.authCheck, Event.kindCheck, Event.txnBegin,
                      Event.globalrevCheck, Event.hookBuild,
                      Event.stagePublic op.bookmark op.target op.reason
                        op.bundle_replay, Event.commitWithHook h])
              | none =>
                match repo.commit with
                | Except.error e =>
                  (Except.error (BookmarkMovementError.StorageError e),
                    [Event.authCheck, Event.kindCheck, Event.txnBegin,
                      Event.globalrevCheck, Event.hookBuild,
                      Event.stagePublic op.bookmark op.target op.reason
                        op.bundle_replay, Event.commit])
                | Except.ok true =>
                  (Except.ok (),
                    [Event.authCheck, Event.kindCheck, Event.txnBegin,
                      Event.globalrevCheck, Event.hookBuild,
                      Event.stagePublic op.bookmark op.target op.reason
                        op.bundle_replay, Event.commit])
                | Except.ok false =>
                  (Except.error BookmarkMovementError.TransactionFailed,
                    [Event.authCheck, Event.kindCheck, Event.txnBegin,
                      Event.globalrevCheck, Event.hookBuild,
                      Event.stagePublic op.bookmark op.target op.reason
                        op.bundle_replay, Event.commit])

/-- Sample context used in concrete evaluations. -/
def ctxSample : CoreContext := { principal := "alice" }

/-- ACL table allowing every principal on every bookmark. -/
def attrsAllow : BookmarkAttrs := { is_allowed := fun _ _ => true }

/-- ACL table refusing every principal on every bookmark. -/
def attrsDeny : BookmarkAttrs := { is_allowed := fun _ _ => false }

/-- Scratch-eligibility sample: exactly one scratch-namespace name. -/
def ipSample : InfinitepushParams :=
  { scratch_eligible := fun b => b == "scratch/alice/feature" }

/-- Global numbering disabled. -/
def ppDisabled : PushrebaseParams := { assign_globalrevs := false }

/-- Global numbering enabled. -/
def ppEnabled : PushrebaseParams := { assign_globalrevs := true }

/-- A store where every operation succeeds, commits apply, and the hook
builder derives no hook. -/
def repoOk : Repo :=
  { stage_scratch := fun _ _ => Except.ok ()
    stage_public := fun _ _ _ _ => Except.ok ()
    commit := Except.ok true
    commit_with_hook := fun _ => Except.ok true
    hook_builder := fun _ _ => Except.ok none }

/-- Like `repoOk`, but the hook builder derives a hook. -/
def repoHook : Repo :=
  { repoOk with hook_builder := fun _ _ => Except.ok (some { id := 7 }) }

/-- Like `repoOk`, but every commit reports "not applied" (lost race). -/
def repoLost : Repo :=
  { repoOk with
    commit := Except.ok false
    commit_with_hook := fun _ => Except.ok false }

/-- `List.find?` over an append prefers the first list. -/
theorem hm_find_append (l1 l2 : List (ChangesetId × BonsaiChangeset))
    (p : ChangesetId × BonsaiChangeset → Bool) :
    (l1 ++ l2).find? p =
      match l1.find? p with
      | some v => some v
      | none => l2.find? p := by
  induction l1 with
  | nil => simp
  | cons a l ih =>
    by_cases hpa : p a
    · simp [List.find?_cons_of_pos, hpa]
    · simp [List.find?_cons_of_neg, hpa, ih]

/-- Lookup in an appended map: the later (second) map wins per key. -/
theorem hmLookup_append (m1 m2 : List (ChangesetId × BonsaiChangeset))
    (k : ChangesetId) :
    hmLookup (m1 ++ m2) k = hmOr (hmLookup m2 k) (hmLookup m1 k) := by
  unfold hmLookup hmOr
  rw [List.reverse_append, hm_find_append]
  cases m2.reverse.find? (fun p => p.1 == k) <;> simp

/-- Claim C7: attaching new changesets twice yields, extensionally, the same
effective mapping as attaching once the union of the two maps in which the
later map wins per key; the merge is a total function and never raises an
error.  (First conjunct: the two-call and one-call configurations agree at
every key; second conjunct: in `hmUnion m1 m2` the value from `m2` wins.) -/
theorem with_new_changesets_merge (op : CreateBookmarkOp)
    (m1 m2 : List (ChangesetId × BonsaiChangeset)) (k : ChangesetId) :
    hmLookup ((op.with_new_changesets m1).with_new_changesets m2).new_changesets
        k
      = hmLookup (op.with_new_changesets (hmUnion m1 m2)).new_changesets k
    ∧ hmLookup (hmUnion m1 m2) k = hmOr (hmLookup m2 k) (hmLookup m1 k) := by
  refine ⟨?_, hmLookup_append m1 m2 k⟩
  unfold CreateBookmarkOp.with_new_changesets hmUnion
  rcases hnc : op.new_changesets with _ | ⟨a, l⟩
  · rcases hm1 : m1 with _ | ⟨b, t⟩
    · simp
    · simp
  · simp [List.append_assoc]

/-- Claim C9: the kind restriction is consulted from the single
`kind_restrictions` field that each restriction setter overwrites, so after
`only_if_scratch` (resp. `only_if_public`) the restriction in force is
`OnlyScratch` (resp. `OnlyPublic`) regardless of which restriction setters
were applied earlier. -/
theorem kind_restriction_last_setter_wins (op : CreateBookmarkOp) :
    op.only_if_scratch.kind_restrictions
        = BookmarkKindRestrictions.OnlyScratch
      ∧ op.only_if_public.kind_restrictions
        = BookmarkKindRestrictions.OnlyPublic
      ∧ op.only_if_public.only_if_scratch.kind_restrictions
        = BookmarkKindRestrictions.OnlyScratch
      ∧ op.only_if_scratch.only_if_public.kind_restrictions
        = BookmarkKindRestrictions.OnlyPublic :=
  ⟨rfl, rfl, rfl, rfl⟩

/-- Claim C10: a freshly constructed operation defaults to ambient-context
authorization, the `AnyKind` restriction, an empty new-changesets map and no
replay metadata; and every fluent setter changes only its own field. -/
theorem new_defaults_and_setter_frames (b : BookmarkName) (t : ChangesetId)
    (r : BookmarkUpdateReason) (op : CreateBookmarkOp)
    (rp : Option BundleReplay) (cs : List (ChangesetId × BonsaiChangeset)) :
    (CreateBookmarkOp.new b t r).bookmark = b
    ∧ (CreateBookmarkOp.new b t r).target = t
    ∧ (CreateBookmarkOp.new b t r).reason = r
    ∧ (CreateBookmarkOp.new b t r).auth = BookmarkMoveAuthorization.Context
    ∧ (CreateBookmarkOp.new b t r).kind_restrictions
      = BookmarkKindRestrictions.AnyKind
    ∧ (CreateBookmarkOp.new b t r).new_changesets = []
    ∧ (CreateBookmarkOp.new b t r).bundle_replay = none
    ∧ op.only_if_scratch.bookmark = op.bookmark
    ∧ op.only_if_scratch.target = op.target
    ∧ op.only_if_scratch.reason = op.reason
    ∧ op.only_if_scratch.auth = op.auth
    ∧ op.only_if_scratch.new_changesets = op.new_changesets
    ∧ op.only_if_scratch.bundle_replay = op.bundle_replay
    ∧ op.only_if_public.bookmark = op.bookmark
    ∧ op.only_if_public.target = op.target
    ∧ op.only_if_public.reason = op.reason
    ∧ op.only_if_public.auth = op.auth
    ∧ op.only_if_public.new_changesets = op.new_changesets
    ∧ op.only_if_public.bundle_replay = op.bundle_replay
    ∧ (op.with_bundle_replay_data rp).bookmark = op.bookmark
    ∧ (op.with_bundle_replay_data rp).target = op.target
    ∧ (op.with_bundle_replay_data rp).reason = op.reason
    ∧ (op.with_bundle_replay_data rp).auth = op.auth
    ∧ (op.with_bundle_replay_data rp).kind_restrictions = op.kind_restrictions
    ∧ (op.with_bundle_replay_data rp).new_changesets = op.new_changesets
    ∧ (op.with_bundle_replay_data rp).bundle_replay = rp
    ∧ (op.with_new_changesets cs).bookmark = op.bookmark
    ∧ (op.with_new_changesets cs).target = op.target
    ∧ (op.with_new_changesets cs).reason = op.reason
    ∧ (op.with_new_changesets cs).auth = op.auth
    ∧ (op.with_new_changesets cs).kind_restrictions = op.kind_restrictions
    ∧ (op.with_new_changesets cs).bundle_replay = op.bundle_replay := by
  refine ⟨rfl, rfl, rfl, rfl, rfl, rfl, rfl, rfl, rfl, rfl, rfl, rfl, rfl,
    rfl, rfl, rfl, rfl, rfl, rfl, rfl, rfl, rfl, rfl, rfl, rfl, rfl,
    ?_, ?_, ?_, ?_, ?_, ?_⟩ <;>
  · unfold CreateBookmarkOp.with_new_changesets
    split <;> rfl

/-- Claim C1: when the ACL refuses the effective principal for the bookmark,
`run` returns the permission-denied failure naming the bookmark and performs
no other step: the trace holds exactly the authorization check, so the kind
classifier is never consulted and no transaction is created, staged or
committed, and no store access beyond the ACL check occurs. -/
theorem run_denied_frame (op : CreateBookmarkOp) (ctx : CoreContext)
    (repo : Repo) (ip : InfinitepushParams) (pp : PushrebaseParams)
    (attrs : BookmarkAttrs)
    (h : attrs.is_allowed (effective_principal op.auth ctx) op.bookmark
      = false) :
    op.run ctx repo ip pp attrs
      = (Except.error (BookmarkMovementError.PermissionDenied op.bookmark),
          [Event.authCheck]) := by
  unfold CreateBookmarkOp.run check_authorized
  simp [h]

/-- Claim C1 witness: a concrete denied request. -/
theorem run_denied_frame_witness :
    (CreateBookmarkOp.new "main" 1 BookmarkUpdateReason.push).run ctxSample
        repoOk ipSample ppDisabled attrsDeny
      = (Except.error (BookmarkMovementError.PermissionDenied "main"),
          [Event.authCheck]) :=
  run_denied_frame (CreateBookmarkOp.new "main" 1 BookmarkUpdateReason.push)
    ctxSample repoOk ipSample ppDisabled attrsDeny rfl

/-- The kind check fails with a kind-mismatch error carrying the demanded and
the resolved kind whenever they disagree. -/
theorem check_kind_mismatch (r : BookmarkKindRestrictions)
    (ip : InfinitepushParams) (bm : BookmarkName) (ek : BookmarkKind)
    (hr : expected_kind r = some ek) (hk : classify ip bm ≠ ek) :
    check_kind r ip bm
      = Except.error (BookmarkMovementError.KindMismatch ek (classify ip bm)) := by
  cases r <;> simp [expected_kind] at hr <;> subst hr <;>
    simp [check_kind, hk]

/-- Claim C2: under a passing authorization check, if the caller declared a
kind restriction demanding kind `ek` and the classified kind disagrees, `run`
fails with the kind-mismatch error carrying both the expected and the actual
kind, and the trace stops at the kind check: the failure happens after the
authorization check and before any transaction is created or staged, so the
store is never mutated. -/
theorem run_kind_mismatch (op : CreateBookmarkOp) (ctx : CoreContext)
    (repo : Repo) (ip : InfinitepushParams) (pp : PushrebaseParams)
    (attrs : BookmarkAttrs) (ek : BookmarkKind)
    (hauth : attrs.is_allowed (effective_principal op.auth ctx) op.bookmark
      = true)
    (hr : expected_kind op.kind_restrictions = some ek)
    (hk : classify ip op.bookmark ≠ ek) :
    op.run ctx repo ip pp attrs
      = (Except.error
          (BookmarkMovementError.KindMismatch ek (classify ip op.bookmark)),
          [Event.authCheck, Event.kindCheck]) := by
  unfold CreateBookmarkOp.run
  simp [check_authorized, hauth,
    check_kind_mismatch op.kind_restrictions ip op.bookmark ek hr hk]

/-- Claim C2 witness: restriction only-scratch on a public-resolving name. -/
theorem run_kind_mismatch_witness :
    (CreateBookmarkOp.new "main" 1 BookmarkUpdateReason.push).only_if_scratch.run
        ctxSample repoOk ipSample ppDisabled attrsAllow
      = (Except.error
          (BookmarkMovementError.KindMismatch BookmarkKind.Scratch
            BookmarkKind.Public),
          [Event.authCheck, Event.kindCheck]) := by
  have h := run_kind_mismatch
    (CreateBookmarkOp.new "main" 1 BookmarkUpdateReason.push).only_if_scratch
    ctxSample repoOk ipSample ppDisabled attrsAllow BookmarkKind.Scratch
    rfl rfl (by decide)
  simpa [classify, ipSample] using h

/-- Claim C6: when the authorization check passes and the kind check resolves
the bookmark as scratch, `run` stages the creation with the scratch variant
(name and target only), never consults the global-numbering policy, never
invokes the auxiliary-mapping hook builder, never stages the public variant,
and any commit it performs is the plain hookless commit. -/
theorem run_scratch_frame (op : CreateBookmarkOp) (ctx : CoreContext)
    (repo : Repo) (ip : InfinitepushParams) (pp : PushrebaseParams)
    (attrs : BookmarkAttrs)
    (hauth : attrs.is_allowed (effective_principal op.auth ctx) op.bookmark
      = true)
    (hk : check_kind op.kind_restrictions ip op.bookmark = Except.ok true) :
    Event.stageScratch op.bookmark op.target ∈ (op.run ctx repo ip pp attrs).2
      ∧ Event.globalrevCheck ∉ (op.run ctx repo ip pp attrs).2
      ∧ Event.hookBuild ∉ (op.run ctx repo ip pp attrs).2
      ∧ (∀ h, Event.commitWithHook h ∉ (op.run ctx repo ip pp attrs).2)
      ∧ (∀ nb nt nr nrp,
          Event.stagePublic nb nt nr nrp ∉ (op.run ctx repo ip pp attrs).2)
      ∧ (repo.stage_scratch op.bookmark op.target = Except.ok () →
          Event.commit ∈ (op.run ctx repo ip pp attrs).2) := by
  unfold CreateBookmarkOp.run
  simp only [check_authorized, hauth, if_true, hk]
  cases hs : repo.stage_scratch op.bookmark op.target with
  | error e => simp [hs]
  | ok u =>
    cases hc : repo.commit with
    | error e => simp
    | ok bb => cases bb <;> simp

/-- Claim C6 witness: a scratch-namespace create under an only-scratch
restriction commits without any hook. -/
theorem run_scratch_frame_witness :
    Event.stageScratch "scratch/alice/feature" 2
        ∈ ((CreateBookmarkOp.new "scratch/alice/feature" 2
              BookmarkUpdateReason.push).only_if_scratch.run ctxSample repoHook
            ipSample ppEnabled attrsAllow).2
      ∧ Event.hookBuild
        ∉ ((CreateBookmarkOp.new "scratch/alice/feature" 2
              BookmarkUpdateReason.push).only_if_scratch.run ctxSample repoHook
            ipSample ppEnabled attrsAllow).2
      ∧ Event.commit
        ∈ ((CreateBookmarkOp.new "scratch/alice/feature" 2
              BookmarkUpdateReason.push).only_if_scratch.run ctxSample repoHook
            ipSample ppEnabled attrsAllow).2 := by
  have h := run_scratch_frame
    (CreateBookmarkOp.new "scratch/alice/feature" 2
      BookmarkUpdateReason.push).only_if_scratch
    ctxSample repoHook ipSample ppEnabled attrsAllow rfl rfl
  exact ⟨h.1, h.2.2.1, h.2.2.2.2.2 rfl⟩

/-- Claim C8: whenever `run` stages a public pointer creation, the staged call
carries exactly the operation's configured name, target, reason and side-band
replay metadata — the metadata is passed through unmodified. -/
theorem run_replay_passthrough (op : CreateBookmarkOp) (ctx : CoreContext)
    (repo : Repo) (ip : InfinitepushParams) (pp : PushrebaseParams)
    (attrs : BookmarkAttrs) (nb : BookmarkName) (nt : ChangesetId)
    (nr : BookmarkUpdateReason) (nrp : Option BundleReplay)
    (h : Event.stagePublic nb nt nr nrp ∈ (op.run ctx repo ip pp attrs).2) :
    nb = op.bookmark ∧ nt = op.target ∧ nr = op.reason
      ∧ nrp = op.bundle_replay := by
  unfold CreateBookmarkOp.run at h
  repeat' split at h
  all_goals simp_all

/-- Claim C8 witness: a concrete public-path run whose staged creation
carries the configured replay metadata. -/
theorem run_replay_passthrough_witness :
    (some { data := 5 } : Option BundleReplay)
      = ((CreateBookmarkOp.new "main" 1
            BookmarkUpdateReason.push).with_bundle_replay_data
          (some { data := 5 })).bundle_replay :=
  (run_replay_passthrough
    ((CreateBookmarkOp.new "main" 1
        BookmarkUpdateReason.push).with_bundle_replay_data
      (some { data := 5 }))
    ctxSample repoOk ipSample ppDisabled attrsAllow
    "main" 1 BookmarkUpdateReason.push (some { data := 5 })
    (by decide)).2.2.2

/-- Claim C3: whenever execution reaches a commit (plain or with hook) and the
store reports outcome `bb` without a storage fault, `run` succeeds exactly
when `bb` is `true` and otherwise returns the lost-race failure
`TransactionFailed`, a variant distinct from every storage-error failure. -/
theorem run_lost_race_distinct (op : CreateBookmarkOp) (ctx : CoreContext)
    (repo : Repo) (ip : InfinitepushParams) (pp : PushrebaseParams)
    (attrs : BookmarkAttrs) (bb : Bool)
    (hc : repo.commit = Except.ok bb)
    (hch : ∀ h, repo.commit_with_hook h = Except.ok bb)
    (hreach : Event.commit ∈ (op.run ctx repo ip pp attrs).2
      ∨ ∃ h, Event.commitWithHook h ∈ (op.run ctx repo ip pp attrs).2) :
    (op.run ctx repo ip pp attrs).1
        = (if bb then Except.ok ()
            else Except.error BookmarkMovementError.TransactionFailed)
      ∧ ∀ e, BookmarkMovementError.TransactionFailed
          ≠ BookmarkMovementError.StorageError e := by
  refine ⟨?_, fun e => by simp⟩
  unfold CreateBookmarkOp.run at hreach ⊢
  repeat' split
  all_goals simp_all

/-- Claim C3 witness: a concrete lost-race commit on the public path. -/
theorem run_lost_race_distinct_witness :
    ((CreateBookmarkOp.new "main" 1 BookmarkUpdateReason.push).run ctxSample
        repoLost ipSample ppDisabled attrsAllow).1
      = (if false then Except.ok ()
          else Except.error BookmarkMovementError.TransactionFailed) :=
  (run_lost_race_distinct
    (CreateBookmarkOp.new "main" 1 BookmarkUpdateReason.push)
    ctxSample repoLost ipSample ppDisabled attrsAllow false rfl (fun _ => rfl)
    (Or.inl (by decide))).1

/-- The kind check never produces the configuration-conflict error. -/
theorem check_kind_no_conflict (r : BookmarkKindRestrictions)
    (ip : InfinitepushParams) (bm : BookmarkName) :
    check_kind r ip bm
      ≠ Except.error BookmarkMovementError.ConfigurationConflict := by
  unfold check_kind
  cases r <;> simp <;> split <;> simp

/-- Claim C4 counterexample: with an empty new-changesets map — no
auxiliary-mapping request at all — a public-resolved bookmark under enabled
global numbering still fails with the configuration-conflict error, so the
failure is not confined to requests with a non-empty new-changesets map. -/
theorem run_globalrev_conflict_counterexample :
    (CreateBookmarkOp.new "main" 1 BookmarkUpdateReason.push).new_changesets
        = []
      ∧ ((CreateBookmarkOp.new "main" 1 BookmarkUpdateReason.push).run
            ctxSample repoOk ipSample ppEnabled attrsAllow).1
        = Except.error BookmarkMovementError.ConfigurationConflict :=
  ⟨rfl, rfl⟩

/-- Claim C4 (amended): under a passing authorization check, `run` fails with
the configuration-conflict error exactly when the bookmark resolves public
(the kind check succeeds as non-scratch) and global numbering is enabled —
independent of the new-changesets map — and in that case the trace stops at
the global-numbering check, so no pointer creation is staged in the
transaction. -/
theorem run_globalrev_conflict_iff (op : CreateBookmarkOp) (ctx : CoreContext)
    (repo : Repo) (ip : InfinitepushParams) (pp : PushrebaseParams)
    (attrs : BookmarkAttrs)
    (hauth : attrs.is_allowed (effective_principal op.auth ctx) op.bookmark
      = true) :
    (((op.run ctx repo ip pp attrs).1
        = Except.error BookmarkMovementError.ConfigurationConflict)
      ↔ (check_kind op.kind_restrictions ip op.bookmark = Except.ok false
          ∧ pp.assign_globalrevs = true))
    ∧ (check_kind op.kind_restrictions ip op.bookmark = Except.ok false →
        pp.assign_globalrevs = true →
        op.run ctx repo ip pp attrs
          = (Except.error BookmarkMovementError.ConfigurationConflict,
              [Event.authCheck, Event.kindCheck, Event.txnBegin,
                Event.globalrevCheck])) := by
  have hne := check_kind_no_conflict op.kind_restrictions ip op.bookmark
  unfold CreateBookmarkOp.run
  simp only [check_authorized, hauth, if_true]
  cases hK : check_kind op.kind_restrictions ip op.bookmark with
  | error e =>
    rw [hK] at hne
    simp_all
  | ok s =>
    cases hg : pp.assign_globalrevs with
    | false =>
      cases s with
      | false =>
        simp only [Bool.false_eq_true, if_false, require_globalrevs_disabled,
          hg]
        repeat' split
        all_goals simp_all
      | true =>
        simp only [if_true]
        repeat' split
        all_goals simp_all
    | true =>
      cases s with
      | false =>
        simp [require_globalrevs_disabled, hg]
      | true =>
        simp only [if_true]
        repeat' split
        all_goals simp_all

/-- Claim C4 (amended) witness: enabled numbering on a public bookmark yields
the configuration conflict even with the default empty new-changesets map. -/
theorem run_globalrev_conflict_iff_witness :
    ((CreateBookmarkOp.new "main" 1 BookmarkUpdateReason.push).run ctxSample
        repoOk ipSample ppEnabled attrsAllow).1
      = Except.error BookmarkMovementError.ConfigurationConflict :=
  ((run_globalrev_conflict_iff
      (CreateBookmarkOp.new "main" 1 BookmarkUpdateReason.push)
      ctxSample repoOk ipSample ppEnabled attrsAllow rfl).1).mpr ⟨rfl, rfl⟩

/-- Claim C5: in every execution, a commit-with-hook carries exactly a hook
the builder returned and happens only on the public path (kind check resolved
non-scratch), and a plain commit happens only when the path is scratch or the
builder returned no hook — so the prepared auxiliary-mapping hook is handed to
the store's atomic commit exactly when one was prepared. -/
theorem run_commit_hook_exact (op : CreateBookmarkOp) (ctx : CoreContext)
    (repo : Repo) (ip : InfinitepushParams) (pp : PushrebaseParams)
    (attrs : BookmarkAttrs) :
    (∀ h, Event.commitWithHook h ∈ (op.run ctx repo ip pp attrs).2 →
        repo.hook_builder op.target op.new_changesets = Except.ok (some h)
          ∧ check_kind op.kind_restrictions ip op.bookmark = Except.ok false)
      ∧ (Event.commit ∈ (op.run ctx repo ip pp attrs).2 →
          check_kind op.kind_restrictions ip op.bookmark = Except.ok true
            ∨ (check_kind op.kind_restrictions ip op.bookmark = Except.ok false
                ∧ repo.hook_builder op.target op.new_changesets
                  = Except.ok none)) := by
  constructor
  · intro h hmem
    unfold CreateBookmarkOp.run at hmem
    repeat' split at hmem
    all_goals simp_all
  · intro hmem
    unfold CreateBookmarkOp.run at hmem
    repeat' split at hmem
    all_goals simp_all

/-- Claim C5 witness: on a concrete public-path run whose builder prepares a
hook, the commit-with-hook event carries exactly that hook. -/
theorem run_commit_hook_exact_witness :
    repoHook.hook_builder 1 [] = Except.ok (some { id := 7 })
      ∧ check_kind BookmarkKindRestrictions.AnyKind ipSample "main"
        = Except.ok false :=
  (run_commit_hook_exact
    (CreateBookmarkOp.new "main" 1 BookmarkUpdateReason.push)
    ctxSample repoHook ipSample ppDisabled attrsAllow).1
    { id := 7 } (by decide)
